import Mathlib

/-!
Verification of the Cyrcdian sleep/circadian core against its specification.

Shallow embedding conventions:
* A JavaScript `Date` is its timestamp in milliseconds, modelled as a
  rational number `ℚ` (JS numbers are IEEE doubles; all arithmetic the
  embedded functions perform on timestamps and hours is exact at this scale,
  so `ℚ` is a faithful model).  Local time is taken as UTC: no time-zone or
  DST offsets are modelled.
* `JS Math.round` rounds half towards positive infinity, `jsRound` below.
* `date-fns` helpers `addMinutes`, `subMinutes`, `addHours`, `addDays`,
  `subDays`, `startOfDay` are embedded as the corresponding exact
  millisecond arithmetic.
* A JS `Date` that may be the `Invalid Date` value is modelled as
  `Option ℚ`, `none` standing for `Invalid Date`.
-/

/-- JS `Math.round`: round half towards positive infinity. -/
def jsRound (x : ℚ) : ℤ := ⌊x + 1/2⌋

/-- `Math.round(x * 10) / 10` — rounding to one decimal place as used by the
sleep-debt tracker. -/
def round1 (x : ℚ) : ℚ := (jsRound (x * 10) : ℚ) / 10

/-- Milliseconds in one minute. -/
def msPerMinute : ℚ := 60000

/-- Milliseconds in one hour. -/
def msPerHour : ℚ := 3600000

/-- Milliseconds in one calendar day (no DST modelled). -/
def msPerDay : ℚ := 86400000

/-- `date-fns addMinutes`. -/
def addMinutes (t m : ℚ) : ℚ := t + m * msPerMinute

/-- `date-fns subMinutes`. -/
def subMinutes (t m : ℚ) : ℚ := t - m * msPerMinute

/-- `date-fns addHours`. -/
def addHours (t h : ℚ) : ℚ := t + h * msPerHour

/-- `date-fns addDays`. -/
def addDays (t : ℚ) (n : ℤ) : ℚ := t + (n : ℚ) * msPerDay

/-- `date-fns subDays`. -/
def subDays (t : ℚ) (n : ℤ) : ℚ := t - (n : ℚ) * msPerDay

/-- `date-fns startOfDay`: midnight of the timestamp's calendar day. -/
def startOfDay (t : ℚ) : ℚ := (⌊t / msPerDay⌋ : ℚ) * msPerDay

/-!  ## src/lib/sleep.ts  -/

/-- `SLEEP_CYCLE_MINUTES` from src/lib/sleep.ts. -/
def SLEEP_CYCLE_MINUTES : ℚ := 90

/-- `FALL_ASLEEP_MINUTES` from src/lib/sleep.ts (30-minute sleep onset buffer). -/
def FALL_ASLEEP_MINUTES : ℚ := 30

/-- Quality tag of a `SleepCycle` in src/lib/sleep.ts. -/
inductive CycleQuality where
  | short
  | optimal
  | extended
deriving DecidableEq, Repr

/-- `SleepCycle` record from src/lib/sleep.ts. -/
structure SleepCycle where
  bedtime : ℚ
  duration : ℚ
  cycles : ℚ
  quality : CycleQuality
deriving DecidableEq, Repr

/-- `SleepCalculation` record from src/lib/sleep.ts. -/
structure SleepCalculation where
  wakeTime : ℚ
  recommendedBedtimes : List SleepCycle
  currentTime : ℚ
  timeUntilBedtime : Option ℤ
  timeUntilWake : Option ℤ
deriving DecidableEq, Repr

/-- `calculateBedtimeForCycles` from src/lib/sleep.ts. -/
def calculateBedtimeForCycles (wakeTime : ℚ) (cycles : ℚ) : ℚ :=
  let sleepMinutes := cycles * SLEEP_CYCLE_MINUTES
  let totalMinutes := sleepMinutes + FALL_ASLEEP_MINUTES
  subMinutes wakeTime totalMinutes

/-- `calculateWakeTimeFromBedtime` from src/lib/sleep.ts. -/
def calculateWakeTimeFromBedtime (bedtime : ℚ) (cycles : ℚ) : ℚ :=
  let sleepMinutes := cycles * SLEEP_CYCLE_MINUTES
  let totalMinutes := sleepMinutes + FALL_ASLEEP_MINUTES
  addMinutes bedtime totalMinutes

/-- Loop body of `calculateOptimalBedtimes`: the `SleepCycle` pushed for a
given cycle count. -/
def mkSleepCycle (wakeTime : ℚ) (cycles : ℚ) : SleepCycle :=
  let sleepMinutes := cycles * SLEEP_CYCLE_MINUTES
  let totalMinutes := sleepMinutes + FALL_ASLEEP_MINUTES
  let bedtime := subMinutes wakeTime totalMinutes
  let duration := sleepMinutes / 60
  let quality : CycleQuality :=
    if cycles ≤ 3 then .short
    else if 5 ≤ cycles then .extended
    else .optimal
  ⟨bedtime, duration, cycles, quality⟩

/-- `calculateOptimalBedtimes` from src/lib/sleep.ts.  The source reads the
clock (`new Date()`); here `currentTime` is passed explicitly. -/
def calculateOptimalBedtimes (wakeTime : ℚ) (currentTime : ℚ) : SleepCalculation :=
  let recommendedBedtimes : List SleepCycle :=
    ([3, 4, 5, 6] : List ℚ).map (mkSleepCycle wakeTime)
  let nextBedtime := recommendedBedtimes.find? (fun bt => decide (currentTime < bt.bedtime))
  let timeUntilBedtime : Option ℤ :=
    nextBedtime.map (fun bt => ⌊(bt.bedtime - currentTime) / (1000 * 60)⌋)
  let timeUntilWake : ℤ := ⌊(wakeTime - currentTime) / (1000 * 60)⌋
  { wakeTime := wakeTime
    recommendedBedtimes := recommendedBedtimes
    currentTime := currentTime
    timeUntilBedtime := timeUntilBedtime
    timeUntilWake := if 0 < timeUntilWake then some timeUntilWake else none }

/-- C5 counterexample inputs: wake time 07:00 (day 0) in milliseconds,
current time midnight. -/
def wake7am : ℚ := 25200000

/-- C2: round-trip and closed-form laws for `calculateBedtimeForCycles` and
`calculateWakeTimeFromBedtime`: for every wake time `W` and cycle count
`c ∈ [3,6]`, composing the two returns `W` exactly, and the bedtime is `W`
minus `(c*90 + 30)` minutes. -/
theorem bedtime_wake_roundtrip (W c : ℚ) (h3 : 3 ≤ c) (h6 : c ≤ 6) :
    calculateWakeTimeFromBedtime (calculateBedtimeForCycles W c) c = W ∧
    calculateBedtimeForCycles W c =
      W - (c * 90 + FALL_ASLEEP_MINUTES) * msPerMinute := by
  constructor
  · simp [calculateWakeTimeFromBedtime, calculateBedtimeForCycles,
      addMinutes, subMinutes]
  · simp [calculateBedtimeForCycles, subMinutes, SLEEP_CYCLE_MINUTES]

/-- C2 witness: the round-trip law at wake time 07:00 with 4 cycles. -/
theorem bedtime_wake_roundtrip_witness :
    (3 : ℚ) ≤ 4 ∧ (4 : ℚ) ≤ 6 ∧
    (calculateWakeTimeFromBedtime (calculateBedtimeForCycles wake7am 4) 4 = wake7am ∧
     calculateBedtimeForCycles wake7am 4 =
       wake7am - ((4 : ℚ) * 90 + FALL_ASLEEP_MINUTES) * msPerMinute) :=
  ⟨by norm_num, by norm_num,
    bedtime_wake_roundtrip wake7am 4 (by norm_num) (by norm_num)⟩

/-- C5 counterexample: for wake time 07:00 the quality tags produced by
`calculateOptimalBedtimes` are NOT `[short, optimal, optimal, extended]`
(cycle 5 already falls in the `≥ 5 → extended` branch). -/
theorem optimalBedtimes_qualities_not_as_claimed :
    ¬ ((calculateOptimalBedtimes wake7am 0).recommendedBedtimes.map
        (fun c => c.quality) =
       [CycleQuality.short, CycleQuality.optimal, CycleQuality.optimal,
        CycleQuality.extended]) := by
  decide

/-- C5 (amended): for wake time 07:00, `calculateOptimalBedtimes` yields
exactly 4 recommended bedtimes with cycle counts 3,4,5,6, durations
4.5h, 6h, 7.5h, 9h, and quality tags short, optimal, extended, extended. -/
theorem optimalBedtimes_at_7am :
    ((calculateOptimalBedtimes wake7am 0).recommendedBedtimes.length = 4) ∧
    ((calculateOptimalBedtimes wake7am 0).recommendedBedtimes.map
        (fun c => c.cycles) = [3, 4, 5, 6]) ∧
    ((calculateOptimalBedtimes wake7am 0).recommendedBedtimes.map
        (fun c => c.duration) = [4.5, 6, 7.5, 9]) ∧
    ((calculateOptimalBedtimes wake7am 0).recommendedBedtimes.map
        (fun c => c.quality) =
      [CycleQuality.short, CycleQuality.optimal, CycleQuality.extended,
       CycleQuality.extended]) := by
  refine ⟨by decide, by decide, ?_, by decide⟩
  norm_num [calculateOptimalBedtimes, mkSleepCycle, SLEEP_CYCLE_MINUTES]

/-!  ## src/lib/circadian.ts  -/

/-- Sun phase classification from src/lib/circadian.ts. -/
inductive SunPhase where
  | night
  | dawn
  | day
  | dusk
deriving DecidableEq, Repr

/-- `CircadianData` from src/lib/circadian.ts (all fields are timestamps). -/
structure CircadianData where
  sunrise : ℚ
  sunset : ℚ
  solarNoon : ℚ
  nauticalDawn : ℚ
  nauticalDusk : ℚ
  optimalSleepStart : ℚ
  optimalSleepEnd : ℚ
  optimalWakeStart : ℚ
  optimalWakeEnd : ℚ
deriving DecidableEq, Repr

/-- Result record of `getCurrentSunPhase`. -/
structure SunPhaseInfo where
  phase : SunPhase
  nextTransition : ℚ
  timeToNext : ℤ
deriving DecidableEq, Repr

/-- `getCurrentSunPhase` from src/lib/circadian.ts.  The source reads the
clock (`new Date()`); here `now` is passed explicitly. -/
def getCurrentSunPhase (d : CircadianData) (now : ℚ) : SunPhaseInfo :=
  if now < d.nauticalDawn then
    ⟨.night, d.nauticalDawn, ⌊(d.nauticalDawn - now) / (1000 * 60)⌋⟩
  else if now < d.sunrise then
    ⟨.dawn, d.sunrise, ⌊(d.sunrise - now) / (1000 * 60)⌋⟩
  else if now < d.sunset then
    ⟨.day, d.sunset, ⌊(d.sunset - now) / (1000 * 60)⌋⟩
  else if now < d.nauticalDusk then
    ⟨.dusk, d.nauticalDusk, ⌊(d.nauticalDusk - now) / (1000 * 60)⌋⟩
  else
    ⟨.night, d.nauticalDawn, ⌊(d.nauticalDawn - now) / (1000 * 60)⌋⟩

/-- Concrete circadian data for the C3 counterexample (timestamps in ms of
day 0): nautical dawn 06:00, sunrise 07:00, sunset 19:00, nautical
dusk 20:00; windows per `getCircadianData` (sleep: sunset+2h..+4h, wake:
sunrise−30min..+1h). -/
def cdEx : CircadianData :=
  { sunrise := 25200000
    sunset := 68400000
    solarNoon := 46800000
    nauticalDawn := 21600000
    nauticalDusk := 72000000
    optimalSleepStart := 75600000
    optimalSleepEnd := 82800000
    optimalWakeStart := 23400000
    optimalWakeEnd := 28800000 }

/-- C3 counterexample: at 21:00 (ms 75600000), one hour past nautical dusk,
the phase is `night` but `nextTransition` is the already-past same-day
nautical dawn and `timeToNext` is negative (−900 minutes) — the claimed
wrap to the next day's dawn and the claimed non-negativity both fail. -/
theorem sunPhase_night_no_wrap_counterexample :
    (getCurrentSunPhase cdEx 75600000).phase = SunPhase.night ∧
    (getCurrentSunPhase cdEx 75600000).nextTransition < 75600000 ∧
    (getCurrentSunPhase cdEx 75600000).timeToNext = -900 := by
  have h : getCurrentSunPhase cdEx 75600000 =
      ⟨SunPhase.night, 21600000, -900⟩ := by
    rw [getCurrentSunPhase, if_neg (by decide), if_neg (by decide),
      if_neg (by decide), if_neg (by decide)]
    norm_num [cdEx]
  rw [h]
  refine ⟨rfl, by norm_num, rfl⟩

/-- C3 (amended): with dawn ≤ sunrise ≤ sunset ≤ dusk, `getCurrentSunPhase`
classifies: before nautical dawn → `night` with upcoming dawn and
non-negative floored minutes; [dawn, sunrise) → `dawn`; [sunrise, sunset) →
`day`; [sunset, dusk) → `dusk`, each with the corresponding next boundary;
at or after nautical dusk → `night` but with the SAME data's nautical dawn
(no wrap to the next day) and `timeToNext` the floored — possibly
negative — minute difference to that past dawn. -/
theorem sunPhase_classification (d : CircadianData) (now : ℚ)
    (o1 : d.nauticalDawn ≤ d.sunrise) (o2 : d.sunrise ≤ d.sunset)
    (o3 : d.sunset ≤ d.nauticalDusk) :
    (now < d.nauticalDawn →
      getCurrentSunPhase d now =
        ⟨.night, d.nauticalDawn, ⌊(d.nauticalDawn - now) / (1000 * 60)⌋⟩ ∧
      0 ≤ (getCurrentSunPhase d now).timeToNext) ∧
    (d.nauticalDawn ≤ now → now < d.sunrise →
      getCurrentSunPhase d now =
        ⟨.dawn, d.sunrise, ⌊(d.sunrise - now) / (1000 * 60)⌋⟩) ∧
    (d.sunrise ≤ now → now < d.sunset →
      getCurrentSunPhase d now =
        ⟨.day, d.sunset, ⌊(d.sunset - now) / (1000 * 60)⌋⟩) ∧
    (d.sunset ≤ now → now < d.nauticalDusk →
      getCurrentSunPhase d now =
        ⟨.dusk, d.nauticalDusk, ⌊(d.nauticalDusk - now) / (1000 * 60)⌋⟩) ∧
    (d.nauticalDusk ≤ now →
      getCurrentSunPhase d now =
        ⟨.night, d.nauticalDawn, ⌊(d.nauticalDawn - now) / (1000 * 60)⌋⟩) := by
  refine ⟨fun h => ⟨?_, ?_⟩, fun h1 h2 => ?_, fun h1 h2 => ?_, fun h1 h2 => ?_,
    fun h => ?_⟩
  · rw [getCurrentSunPhase, if_pos h]
  · rw [getCurrentSunPhase, if_pos h]
    exact Int.floor_nonneg.2 (div_nonneg (by linarith) (by norm_num))
  · rw [getCurrentSunPhase, if_neg (not_lt.2 h1), if_pos h2]
  · rw [getCurrentSunPhase, if_neg (not_lt.2 (by linarith)),
      if_neg (not_lt.2 h1), if_pos h2]
  · rw [getCurrentSunPhase, if_neg (not_lt.2 (by linarith)),
      if_neg (not_lt.2 (by linarith)), if_neg (not_lt.2 h1), if_pos h2]
  · rw [getCurrentSunPhase, if_neg (not_lt.2 (by linarith)),
      if_neg (not_lt.2 (by linarith)), if_neg (not_lt.2 (by linarith)),
      if_neg (not_lt.2 h)]

/-- C3 witness: the classification applied to the concrete data `cdEx` at
noon, landing in the `day` segment. -/
theorem sunPhase_classification_witness :
    cdEx.nauticalDawn ≤ cdEx.sunrise ∧ cdEx.sunrise ≤ cdEx.sunset ∧
    cdEx.sunset ≤ cdEx.nauticalDusk ∧
    cdEx.sunrise ≤ 43200000 ∧ (43200000 : ℚ) < cdEx.sunset ∧
    getCurrentSunPhase cdEx 43200000 =
      ⟨.day, cdEx.sunset, ⌊(cdEx.sunset - 43200000) / (1000 * 60)⌋⟩ :=
  ⟨by decide, by decide, by decide, by decide, by decide,
    ((sunPhase_classification cdEx 43200000 (by decide) (by decide)
      (by decide)).2.2.1 (by decide) (by decide))⟩

/-!  ## src/lib/sleep-debt.ts  -/

/-- `DEFAULT_OPTIMAL_SLEEP` from src/lib/sleep-debt.ts. -/
def DEFAULT_OPTIMAL_SLEEP : ℚ := 8

/-- Session quality rating from src/types/energy.ts. -/
inductive SessionQuality where
  | poor
  | fair
  | good
  | excellent
deriving DecidableEq, Repr

/-- Session source tag from src/types/energy.ts. -/
inductive SessionSource where
  | automatic
  | manual
deriving DecidableEq, Repr

/-- `SleepSession` from src/types/energy.ts. -/
structure SleepSession where
  date : ℚ
  bedtime : ℚ
  wakeTime : ℚ
  actualSleepHours : ℚ
  plannedSleepHours : ℚ
  quality : SessionQuality
  sleepDebtImpact : ℚ
  source : SessionSource
deriving DecidableEq, Repr

/-- `SleepDebt` from src/types/energy.ts. -/
structure SleepDebt where
  totalHours : ℚ
  dailyDeficit : ℚ
  weeklyAverage : ℚ
  optimalSleepHours : ℚ
  lastUpdated : ℚ
deriving DecidableEq, Repr

/-- JS `a || d` for an optional numeric setting: `undefined` and `0` are
falsy and fall back to the default. -/
def jsOrDefault (o : Option ℚ) (d : ℚ) : ℚ :=
  match o with
  | some v => if v = 0 then d else v
  | none => d

/-- Accumulator of the 7-day loop in `calculateSleepDebt`
(`totalDebt`, `dailyDeficit` and `weeklyDeficits` mutable locals). -/
structure DebtAcc where
  totalDebt : ℚ
  dailyDeficit : ℚ
  weeklyDeficits : List ℚ
deriving DecidableEq, Repr

/-- One iteration of the day loop in `calculateSleepDebt`
(src/lib/sleep-debt.ts lines 36–58). -/
def debtStep (recent : List SleepSession) (optimal today sevenDaysAgo : ℚ)
    (acc : DebtAcc) (i : ℕ) : DebtAcc :=
  let date := addDays sevenDaysAgo (i : ℤ)
  let daySession :=
    recent.find? (fun s => decide (startOfDay s.date = startOfDay date))
  let dayDeficit : ℚ :=
    match daySession with
    | some s => max 0 (optimal - s.actualSleepHours)
    | none => optimal
  { totalDebt := acc.totalDebt + dayDeficit
    dailyDeficit :=
      if startOfDay date = startOfDay today then dayDeficit
      else acc.dailyDeficit
    weeklyDeficits := acc.weeklyDeficits ++ [dayDeficit] }

/-- `calculateSleepDebt` from src/lib/sleep-debt.ts.  The source reads the
clock (`new Date()`); here `now` is passed explicitly. -/
def calculateSleepDebt (sessions : List SleepSession)
    (optimalSetting : Option ℚ) (now : ℚ) : SleepDebt :=
  let optimalSleepHours := jsOrDefault optimalSetting DEFAULT_OPTIMAL_SLEEP
  let today := startOfDay now
  let sevenDaysAgo := subDays today 7
  let recentSessions := sessions.filter
    (fun s => decide (sevenDaysAgo ≤ s.date) && decide (s.date ≤ today))
  let acc := (List.range 7).foldl
    (debtStep recentSessions optimalSleepHours today sevenDaysAgo) ⟨0, 0, []⟩
  let weeklyAverage := (acc.weeklyDeficits.foldl (· + ·) 0) / 7
  { totalHours := round1 acc.totalDebt
    dailyDeficit := round1 acc.dailyDeficit
    weeklyAverage := round1 weeklyAverage
    optimalSleepHours := optimalSleepHours
    lastUpdated := now }

/-- `getSleepDebtSeverity` severity levels from src/lib/sleep-debt.ts. -/
inductive SeverityLevel where
  | none
  | mild
  | moderate
  | severe
  | extreme
deriving DecidableEq, Repr

/-- Result record of `getSleepDebtSeverity`. -/
structure SeverityInfo where
  level : SeverityLevel
  description : String
  color : String
deriving DecidableEq, Repr

/-- `getSleepDebtSeverity` from src/lib/sleep-debt.ts. -/
def getSleepDebtSeverity (debt : ℚ) : SeverityInfo :=
  if debt ≤ 1 then
    { level := SeverityLevel.none, description := "Well rested", color := "green" }
  else if debt ≤ 3 then
    { level := SeverityLevel.mild, description := "Slightly tired", color := "yellow" }
  else if debt ≤ 6 then
    { level := SeverityLevel.moderate, description := "Noticeably tired", color := "orange" }
  else if debt ≤ 10 then
    { level := SeverityLevel.severe, description := "Very tired", color := "red" }
  else
    { level := SeverityLevel.extreme, description := "Exhausted", color := "red" }

/-- A day-start timestamp is a whole multiple of `msPerDay` and is fixed by
`startOfDay`. -/
theorem startOfDay_mul_int (n : ℤ) :
    startOfDay ((n : ℚ) * msPerDay) = (n : ℚ) * msPerDay := by
  unfold startOfDay
  rw [mul_div_assoc, div_self (by norm_num [msPerDay]), mul_one,
    Int.floor_intCast]

/-- `startOfDay` is idempotent. -/
theorem startOfDay_startOfDay (t : ℚ) :
    startOfDay (startOfDay t) = startOfDay t :=
  startOfDay_mul_int ⌊t / msPerDay⌋

/-- None of the 7 loop days of `calculateSleepDebt` falls in today's day
bucket: the loop runs over today−7 … today−1. -/
theorem loopDay_ne_today (t : ℚ) (i : ℕ) (hi : i < 7) :
    startOfDay (addDays (subDays (startOfDay t) 7) (i : ℤ)) ≠
      startOfDay (startOfDay t) := by
  have h1 : addDays (subDays (startOfDay t) 7) (i : ℤ) =
      ((⌊t / msPerDay⌋ - 7 + i : ℤ) : ℚ) * msPerDay := by
    simp only [addDays, subDays, startOfDay]
    push_cast
    ring
  rw [h1, startOfDay_mul_int, startOfDay_startOfDay]
  rw [show startOfDay t = ((⌊t / msPerDay⌋ : ℤ) : ℚ) * msPerDay from rfl]
  intro hEq
  have hD : (msPerDay : ℚ) ≠ 0 := by norm_num [msPerDay]
  have h2 : ((⌊t / msPerDay⌋ - 7 + i : ℤ) : ℚ) = ((⌊t / msPerDay⌋ : ℤ) : ℚ) :=
    mul_right_cancel₀ hD hEq
  have h3 : (⌊t / msPerDay⌋ - 7 + i : ℤ) = ⌊t / msPerDay⌋ := by exact_mod_cast h2
  omega

/-- The day loop leaves `dailyDeficit` untouched when no loop day matches
today's bucket. -/
theorem debtLoop_dailyDeficit_const (recent : List SleepSession)
    (optimal today sevenDaysAgo : ℚ) (l : List ℕ) (acc : DebtAcc)
    (h : ∀ i ∈ l, startOfDay (addDays sevenDaysAgo (i : ℤ)) ≠ startOfDay today) :
    ((l.foldl (debtStep recent optimal today sevenDaysAgo) acc).dailyDeficit) =
      acc.dailyDeficit := by
  induction l generalizing acc with
  | nil => rfl
  | cons i t ih =>
    rw [List.foldl_cons, ih _ (fun j hj => h j (List.mem_cons_of_mem i hj))]
    simp [debtStep, h i (List.mem_cons_self i t)]

/-- The day loop adds the full optimal value for every day with no matching
session. -/
theorem debtLoop_totalDebt_no_session (recent : List SleepSession)
    (optimal today sevenDaysAgo : ℚ) (l : List ℕ) (acc : DebtAcc)
    (h : ∀ i ∈ l, recent.find?
        (fun s => decide (startOfDay s.date =
          startOfDay (addDays sevenDaysAgo (i : ℤ)))) = none) :
    ((l.foldl (debtStep recent optimal today sevenDaysAgo) acc).totalDebt) =
      acc.totalDebt + optimal * l.length := by
  induction l generalizing acc with
  | nil => simp
  | cons i t ih =>
    rw [List.foldl_cons, ih _ (fun j hj => h j (List.mem_cons_of_mem i hj))]
    simp only [debtStep, h i (List.mem_cons_self i t), List.length_cons]
    push_cast
    ring

/-- C1 failing input, current time: 100 days + 10 minutes past the epoch. -/
def now100 : ℚ := 8640600000

/-- C1 failing input, session: dated in today's day bucket (midnight of
day 100) with exactly the optimal 8 hours of sleep. -/
def sess8hToday : SleepSession :=
  { date := 8640000000
    bedtime := 8611800000
    wakeTime := 8640600000
    actualSleepHours := 8
    plannedSleepHours := 8
    quality := SessionQuality.good
    sleepDebtImpact := 0
    source := SessionSource.manual }

/-- C1: the day loop of `calculateSleepDebt` runs over the 7 days ending
YESTERDAY (today−7 … today−1), never today: `dailyDeficit` is 0 for every
input (the today-branch is dead code), and a history holding one session
dated today with exactly optimal sleep still yields `totalHours` 56
(7 missing days × 8h) instead of the 48 the claim's window implies. -/
theorem calculateSleepDebt_skips_today :
    (∀ (sessions : List SleepSession) (setting : Option ℚ) (now : ℚ),
      (calculateSleepDebt sessions setting now).dailyDeficit = 0) ∧
    (calculateSleepDebt [sess8hToday] none now100).totalHours = 56 ∧
    (calculateSleepDebt [sess8hToday] none now100).dailyDeficit = 0 := by
  have hdd : ∀ (sessions : List SleepSession) (setting : Option ℚ) (now : ℚ),
      (calculateSleepDebt sessions setting now).dailyDeficit = 0 := by
    intro sessions setting now
    simp only [calculateSleepDebt]
    rw [debtLoop_dailyDeficit_const _ _ _ _ _ _
      (fun i hi => loopDay_ne_today now i (List.mem_range.mp hi))]
    norm_num [round1, jsRound]
  refine ⟨hdd, ?_, hdd _ _ _⟩
  have h1 : startOfDay now100 = 8640000000 := by
    norm_num [startOfDay, now100, msPerDay]
  have hfilter : List.filter
      (fun s => decide (subDays (startOfDay now100) 7 ≤ s.date) &&
        decide (s.date ≤ startOfDay now100)) [sess8hToday] = [sess8hToday] := by
    norm_num [List.filter, h1, subDays, msPerDay, sess8hToday]
  have hfind : ∀ i ∈ List.range 7,
      List.find? (fun s => decide (startOfDay s.date =
        startOfDay (addDays (subDays (startOfDay now100) 7) (i : ℤ))))
        [sess8hToday] = none := by
    intro i hi
    have hne : startOfDay sess8hToday.date ≠
        startOfDay (addDays (subDays (startOfDay now100) 7) (i : ℤ)) := by
      have h2 : startOfDay sess8hToday.date = startOfDay (startOfDay now100) := by
        rw [h1]
        rfl
      rw [h2]
      exact fun hEq =>
        loopDay_ne_today now100 i (List.mem_range.mp hi) hEq.symm
    simp [List.find?, hne]
  simp only [calculateSleepDebt, hfilter]
  rw [debtLoop_totalDebt_no_session _ _ _ _ _ _ hfind]
  norm_num [round1, jsRound, jsOrDefault, DEFAULT_OPTIMAL_SLEEP]

/-- C8: severity classification boundaries of `getSleepDebtSeverity`:
`none` iff debt ≤ 1, `mild` iff 1 < debt ≤ 3, `moderate` iff
3 < debt ≤ 6, `severe` iff 6 < debt ≤ 10, `extreme` iff 10 < debt. -/
theorem sleepDebtSeverity_boundaries (debt : ℚ) :
    ((getSleepDebtSeverity debt).level = SeverityLevel.none ↔ debt ≤ 1) ∧
    ((getSleepDebtSeverity debt).level = SeverityLevel.mild ↔
      1 < debt ∧ debt ≤ 3) ∧
    ((getSleepDebtSeverity debt).level = SeverityLevel.moderate ↔
      3 < debt ∧ debt ≤ 6) ∧
    ((getSleepDebtSeverity debt).level = SeverityLevel.severe ↔
      6 < debt ∧ debt ≤ 10) ∧
    ((getSleepDebtSeverity debt).level = SeverityLevel.extreme ↔
      10 < debt) := by
  unfold getSleepDebtSeverity
  split_ifs with h1 h2 h3 h4 <;>
    refine ⟨?_, ?_, ?_, ?_, ?_⟩ <;>
    simp <;>
    first
      | linarith
      | (rintro ⟨a, b⟩; linarith)
      | (intro a; linarith)
      | exact ⟨by linarith, by linarith⟩

/-!  ## src/lib/wake-detection.ts  -/

/-- `sleepThresholdMinutes` of `WakeDetectionService` (180 = 3 hours). -/
def sleepThresholdMinutes : ℚ := 180

/-- Wake-event confidence grade. -/
inductive WakeConfidence where
  | low
  | medium
  | high
deriving DecidableEq, Repr

/-- Wake-event source tag. -/
inductive WakeSource where
  | visibility
  | userInteraction
  | manual
deriving DecidableEq, Repr

/-- `WakeEvent` from src/lib/wake-detection.ts. -/
structure WakeEvent where
  timestamp : ℚ
  confidence : WakeConfidence
  source : WakeSource
deriving DecidableEq, Repr

/-- `SleepSession` from src/lib/wake-detection.ts (distinct from the one
in src/types/energy.ts). -/
structure WdSleepSession where
  bedtime : Option ℚ
  wakeTime : Option ℚ
  duration : Option ℚ
  quality : Option ℚ
  cycles : Option ℤ
  isAutoDetected : Bool
deriving DecidableEq, Repr

/-- `calculateWakeConfidence` from src/lib/wake-detection.ts. -/
def calculateWakeConfidence (inactiveMinutes : ℚ) : WakeConfidence :=
  if 480 ≤ inactiveMinutes then .high
  else if 360 ≤ inactiveMinutes then .medium
  else .low

/-- Observable outcome of `handleScreenVisible`: the updated
`lastVisibilityChange` state, the emitted wake event (if any) and the
stored inferred sleep session (if any). -/
structure VisibleResult where
  lastVisibilityChange : Option ℚ
  emitted : Option WakeEvent
  stored : Option WdSleepSession
deriving DecidableEq, Repr

/-- `handleScreenVisible` from src/lib/wake-detection.ts, as a pure
transition on the `lastVisibilityChange` state (the source mutates the
field and calls `notifyWakeEvent`/`storeSleepSession`; those observable
effects are returned). -/
def handleScreenVisible (lastVisibilityChange : Option ℚ) (now : ℚ) :
    VisibleResult :=
  match lastVisibilityChange with
  | none => ⟨some now, none, none⟩
  | some last =>
    let inactiveMinutes := (now - last) / (1000 * 60)
    if sleepThresholdMinutes ≤ inactiveMinutes then
      ⟨some now,
        some ⟨now, calculateWakeConfidence inactiveMinutes, .visibility⟩,
        some ⟨some last, some now, some inactiveMinutes, none,
          some (jsRound (inactiveMinutes / 90)), true⟩⟩
    else
      ⟨some now, none, none⟩

/-- C6: on a foreground transition with a previously recorded timestamp,
an elapsed time of exactly 179 min emits nothing; exactly 180 min emits one
low-confidence event; 360 min medium; 480 min high; and whenever an event
fires, an inferred session covering [last, now] is stored. -/
theorem wake_event_thresholds (t : ℚ) :
    ((handleScreenVisible (some t) (t + 10740000)).emitted = none) ∧
    ((handleScreenVisible (some t) (t + 10800000)).emitted =
      some ⟨t + 10800000, WakeConfidence.low, WakeSource.visibility⟩) ∧
    ((handleScreenVisible (some t) (t + 21600000)).emitted =
      some ⟨t + 21600000, WakeConfidence.medium, WakeSource.visibility⟩) ∧
    ((handleScreenVisible (some t) (t + 28800000)).emitted =
      some ⟨t + 28800000, WakeConfidence.high, WakeSource.visibility⟩) ∧
    (∀ last now, (handleScreenVisible (some last) now).emitted.isSome →
      (handleScreenVisible (some last) now).stored =
        some ⟨some last, some now, some ((now - last) / (1000 * 60)), none,
          some (jsRound (((now - last) / (1000 * 60)) / 90)), true⟩) := by
  have e179 : (t + 10740000 - t) / (1000 * 60) = (179 : ℚ) := by ring_nf
  have e180 : (t + 10800000 - t) / (1000 * 60) = (180 : ℚ) := by ring_nf
  have e360 : (t + 21600000 - t) / (1000 * 60) = (360 : ℚ) := by ring_nf
  have e480 : (t + 28800000 - t) / (1000 * 60) = (480 : ℚ) := by ring_nf
  refine ⟨?_, ?_, ?_, ?_, ?_⟩
  · simp only [handleScreenVisible, e179]
    rw [if_neg (by norm_num [sleepThresholdMinutes])]
  · simp only [handleScreenVisible, e180]
    rw [if_pos (by norm_num [sleepThresholdMinutes])]
    norm_num [calculateWakeConfidence]
  · simp only [handleScreenVisible, e360]
    rw [if_pos (by norm_num [sleepThresholdMinutes])]
    norm_num [calculateWakeConfidence]
  · simp only [handleScreenVisible, e480]
    rw [if_pos (by norm_num [sleepThresholdMinutes])]
    norm_num [calculateWakeConfidence]
  · intro last now hev
    by_cases hc : sleepThresholdMinutes ≤ (now - last) / (1000 * 60)
    · simp only [handleScreenVisible]
      rw [if_pos hc]
    · simp only [handleScreenVisible] at hev
      rw [if_neg hc] at hev
      simp at hev

/-- C6 witness: at `last = 0`, `now = 180 min`, the event fires and the
stored session covers the interval. -/
theorem wake_event_thresholds_witness :
    ((handleScreenVisible (some 0) 10800000).emitted.isSome = true) ∧
    ((handleScreenVisible (some 0) 10800000).stored =
      some ⟨some 0, some 10800000, some ((10800000 - 0) / (1000 * 60)), none,
        some (jsRound (((10800000 - 0) / (1000 * 60)) / 90)), true⟩) :=
  ⟨by norm_num [handleScreenVisible, sleepThresholdMinutes,
      calculateWakeConfidence],
    (wake_event_thresholds 0).2.2.2.2 0 10800000
      (by norm_num [handleScreenVisible, sleepThresholdMinutes,
        calculateWakeConfidence])⟩

/-- The `try { callback(event) } catch { // Silently handle callback
errors }` wrapper in `notifyWakeEvent`: any thrown error is discarded. -/
def jsTryCatch {ε : Type} (action : Except ε Unit) : Except ε Unit :=
  match action with
  | Except.ok u => Except.ok u
  | Except.error _ => Except.ok ()

/-- `notifyWakeEvent` from src/lib/wake-detection.ts: iterate the callback
list, invoking each on the event inside the try/catch.  A callback is
modelled by its behaviour `WakeEvent → Except ε Unit` (it may throw an
exception of type `ε`); the outer `Except` layer is what escapes the whole
notification, and the returned list records each callback's own outcome. -/
def notifyWakeEvent {ε : Type} :
    List (WakeEvent → Except ε Unit) → WakeEvent →
      Except ε (List (Except ε Unit))
  | [], _ => Except.ok []
  | cb :: rest, e => do
    let r := cb e
    let _ ← jsTryCatch r
    let rs ← notifyWakeEvent rest e
    pure (r :: rs)

/-- C9: delivering a wake event never propagates a listener exception and
every listener — including those after a throwing one — is invoked with
the same event: the notification returns normally with the result of each
callback applied to that event. -/
theorem notifyWakeEvent_isolates_listeners {ε : Type}
    (cbs : List (WakeEvent → Except ε Unit)) (e : WakeEvent) :
    notifyWakeEvent cbs e = Except.ok (cbs.map (fun cb => cb e)) := by
  induction cbs with
  | nil => rfl
  | cons cb rest ih =>
    cases h : cb e <;>
      simp [notifyWakeEvent, jsTryCatch, ih, h, Except.instMonad,
        Except.bind, Except.pure]

/-!  ## src/lib/energy-tracking.ts  -/

/-- Energy phase tag from src/types/energy.ts. -/
inductive EnergyPhase where
  | peak
  | moderate
  | low
  | crash
deriving DecidableEq, Repr

/-- `EnergyLevel` from src/types/energy.ts (`level` is an integer since the
source rounds it). -/
structure EnergyLevel where
  timestamp : ℚ
  level : ℤ
  phase : EnergyPhase
  confidence : ℚ
deriving DecidableEq, Repr

/-- JS `Date.prototype.getHours` (local time taken as UTC). -/
def jsHours (t : ℚ) : ℤ := ⌊(t - startOfDay t) / msPerHour⌋

/-- JS `Date.prototype.getMinutes` (local time taken as UTC). -/
def jsMinutes (t : ℚ) : ℤ :=
  ⌊(t - startOfDay t) / msPerMinute⌋ - 60 * jsHours t

/-- `getCircadianEnergyLevel` from src/lib/energy-tracking.ts.  Every
`Math.sin` call in the source has the form `sin(q * π)` for a rational
`q`; the oracle `sinpi` stands for `q ↦ Math.sin(q * π)` (the exact values
of the transcendental function are irrelevant to the claims proved here). -/
def getCircadianEnergyLevel (sinpi : ℚ → ℚ) (sunPhase : SunPhase)
    (currentTime : ℚ) : ℚ :=
  let hour : ℚ := (jsHours currentTime : ℚ)
  let minute : ℚ := (jsMinutes currentTime : ℚ)
  let timeDecimal := hour + minute / 60
  match sunPhase with
  | .night => 10 + sinpi ((timeDecimal - 22) / 10) * 10
  | .dawn =>
    let dawnProgress := (timeDecimal - 5) / 2
    30 + dawnProgress * 40
  | .day =>
    if timeDecimal < 12 then 70 + sinpi ((timeDecimal - 6) / 6) * 20
    else if timeDecimal < 15 then 75 - sinpi ((timeDecimal - 12) / 3) * 15
    else 65 + sinpi ((timeDecimal - 15) / 3) * 15
  | .dusk =>
    let duskProgress := (timeDecimal - 17) / 3
    80 - duskProgress * 30

/-- `calculateConfidence` from src/lib/energy-tracking.ts (the `settings`
parameter is unused in the source).  The source reads the clock; `now` is
passed explicitly. -/
def calculateConfidence (sleepDebt : SleepDebt) (now : ℚ) : ℚ :=
  let c1 : ℚ := 0.8
  let c2 := if 5 < sleepDebt.totalHours then c1 - 0.2 else c1
  let hoursOld := (now - sleepDebt.lastUpdated) / (1000 * 60 * 60)
  let c3 := if hoursOld < 12 then c2 + 0.1 else c2
  max 0.3 (min 1.0 c3)

/-- `calculateCurrentEnergyLevel` from src/lib/energy-tracking.ts (the
`settings` parameter only flows into the unused argument of
`calculateConfidence` and is omitted; the clock is passed explicitly). -/
def calculateCurrentEnergyLevel (sinpi : ℚ → ℚ) (circadianData : CircadianData)
    (sleepDebt : SleepDebt) (now : ℚ) : EnergyLevel :=
  let sunPhase := getCurrentSunPhase circadianData now
  let baseEnergy := getCircadianEnergyLevel sinpi sunPhase.phase now
  let debtPenalty := min 40 (sleepDebt.totalHours * 5)
  let consistencyBonus : ℚ := if sleepDebt.weeklyAverage < 1 then 10 else 0
  let energyLevel := max 5 (min 100 (baseEnergy - debtPenalty + consistencyBonus))
  let phase : EnergyPhase :=
    if 80 ≤ energyLevel then .peak
    else if 60 ≤ energyLevel then .moderate
    else if 30 ≤ energyLevel then .low
    else .crash
  { timestamp := now
    level := jsRound energyLevel
    phase := phase
    confidence := calculateConfidence sleepDebt now }

/-- `jsRound` is bounded below by any integer bound on its argument. -/
theorem le_jsRound (n : ℤ) (x : ℚ) (h : (n : ℚ) ≤ x) : n ≤ jsRound x := by
  unfold jsRound
  exact Int.le_floor.2 (by push_cast; linarith)

/-- `jsRound` is bounded above by any integer bound on its argument. -/
theorem jsRound_le (n : ℤ) (x : ℚ) (h : x ≤ n) : jsRound x ≤ n := by
  unfold jsRound
  have h2 : ⌊(x + 1/2 : ℚ)⌋ ≤ ⌊((n : ℚ) + 1/2 : ℚ)⌋ :=
    Int.floor_le_floor (by linarith)
  rw [Int.floor_int_add] at h2
  have h3 : ⌊(1/2 : ℚ)⌋ = 0 := by norm_num
  omega

/-- C7: for every sine oracle, circadian data, sleep debt and time, the
energy level equals the rounded clamp of base energy minus the debt
penalty `min(40, totalHours*5)` plus the 10-point consistency bonus when
the weekly average is below 1h, and it is an integer in [5, 100]. -/
theorem energyLevel_formula_and_clamped (sinpi : ℚ → ℚ)
    (d : CircadianData) (debt : SleepDebt) (now : ℚ) :
    ((calculateCurrentEnergyLevel sinpi d debt now).level =
      jsRound (max 5 (min 100
        (getCircadianEnergyLevel sinpi (getCurrentSunPhase d now).phase now
          - min 40 (debt.totalHours * 5)
          + (if debt.weeklyAverage < 1 then 10 else 0))))) ∧
    5 ≤ (calculateCurrentEnergyLevel sinpi d debt now).level ∧
    (calculateCurrentEnergyLevel sinpi d debt now).level ≤ 100 := by
  refine ⟨rfl, ?_, ?_⟩
  · exact le_jsRound 5 _ (by push_cast; exact le_max_left _ _)
  · refine jsRound_le 100 _ ?_
    push_cast
    exact max_le (by norm_num)
      (le_trans (min_le_left _ _) (by norm_num))

/-!  ## src/lib/sleep.ts — enhanced schedule  -/

/-- Quality tag of a `SleepOption` in src/lib/sleep.ts. -/
inductive OptionQuality where
  | custom
  | short
  | recommended
  | extended
deriving DecidableEq, Repr

/-- `SleepOption` record from src/lib/sleep.ts (`matchScore` is an integer
since the source rounds it). -/
structure SleepOption where
  bedtimeAlarm : ℚ
  actualSleepTime : ℚ
  calculatedWakeTime : ℚ
  actualSleepDuration : ℚ
  cycles : ℚ
  awakeHours : ℚ
  quality : OptionQuality
  matchScore : ℤ
deriving DecidableEq, Repr

/-- `EnhancedSleepCalculation` record from src/lib/sleep.ts. -/
structure EnhancedSleepCalculation where
  currentWakeTime : ℚ
  targetWakeTime : ℚ
  sleepOptions : List SleepOption
  bestMatch : Option SleepOption
  customAwakeDuration : Option ℚ
deriving DecidableEq, Repr

/-- Entry of the `possibleWakeTimes` array in
`calculateSleepOptionFromAwakeDuration`. -/
structure WakeCandidate where
  wakeTime : ℚ
  cycles : ℚ
  duration : ℚ
deriving DecidableEq, Repr

/-- `calculateSleepOptionFromAwakeDuration` from src/lib/sleep.ts.  The
source `reduce` (no initial value) starts from the first candidate; the
empty-list branch mirrors the caller's `if (sleepOption)` null check and
is unreachable since 4 candidates are always generated. -/
def calculateSleepOptionFromAwakeDuration (currentWakeTime targetWakeTime
    awakeHours : ℚ) (quality : OptionQuality) : Option SleepOption :=
  let bedtimeAlarm := addHours currentWakeTime awakeHours
  let actualSleepTime := addMinutes bedtimeAlarm FALL_ASLEEP_MINUTES
  let possibleWakeTimes : List WakeCandidate :=
    ([3, 4, 5, 6] : List ℚ).map (fun cycles =>
      let sleepDurationMinutes := cycles * SLEEP_CYCLE_MINUTES
      ⟨addMinutes actualSleepTime sleepDurationMinutes, cycles,
        sleepDurationMinutes / 60⟩)
  match possibleWakeTimes with
  | [] => none
  | h :: t =>
    let bestWakeTime := t.foldl (fun best current =>
      if |current.wakeTime - targetWakeTime| <
          |best.wakeTime - targetWakeTime| then current else best) h
    let timeDiffMinutes := |bestWakeTime.wakeTime - targetWakeTime| / (1000 * 60)
    let matchScore := max 0 (100 - (timeDiffMinutes / 60) * 100)
    some
      { bedtimeAlarm := bedtimeAlarm
        actualSleepTime := actualSleepTime
        calculatedWakeTime := bestWakeTime.wakeTime
        actualSleepDuration := bestWakeTime.duration
        cycles := bestWakeTime.cycles
        awakeHours := awakeHours
        quality := quality
        matchScore := jsRound matchScore }

/-- The `standardOptions` array of `calculateEnhancedSleepSchedule`, with
the custom hypothesis unshifted when truthy and in `[11.5, 14.5)`. -/
def standardOptionsWithCustom (custom : Option ℚ) : List (ℚ × OptionQuality) :=
  let standard : List (ℚ × OptionQuality) :=
    [(14.5, .short), (16, .recommended), (18, .extended)]
  match custom with
  | some c =>
    if c ≠ 0 ∧ 11.5 ≤ c ∧ c < 14.5 then (c, .custom) :: standard else standard
  | none => standard

/-- The arrow function of the `bestMatch` reduce in
`calculateEnhancedSleepSchedule` (initial value `null`). -/
def bestMatchStep (best : Option SleepOption) (current : SleepOption) :
    Option SleepOption :=
  match best with
  | none => some current
  | some b => if b.matchScore < current.matchScore then some current else some b

/-- `calculateEnhancedSleepSchedule` from src/lib/sleep.ts. -/
def calculateEnhancedSleepSchedule (currentWakeTime targetWakeTime : ℚ)
    (customAwakeDuration : Option ℚ) : EnhancedSleepCalculation :=
  let sleepOptions := (standardOptionsWithCustom customAwakeDuration).filterMap
    (fun o => calculateSleepOptionFromAwakeDuration currentWakeTime
      targetWakeTime o.1 o.2)
  { currentWakeTime := currentWakeTime
    targetWakeTime := targetWakeTime
    sleepOptions := sleepOptions
    bestMatch := sleepOptions.foldl bestMatchStep none
    customAwakeDuration := customAwakeDuration }

/-- `calculateSleepOptionFromAwakeDuration` always returns an option whose
match score lies in [0, 100] and carries the given awake hours and
quality tag. -/
theorem calcOption_eq (cw tw h : ℚ) (q : OptionQuality) :
    ∃ s, calculateSleepOptionFromAwakeDuration cw tw h q = some s ∧
      0 ≤ s.matchScore ∧ s.matchScore ≤ 100 ∧
      s.awakeHours = h ∧ s.quality = q := by
  have score_upper : ∀ x : ℚ, 0 ≤ x → max 0 (100 - x) ≤ (100 : ℚ) :=
    fun x hx => max_le (by norm_num) (by linarith)
  refine ⟨_, rfl, ?_, ?_, rfl, rfl⟩
  · exact le_jsRound 0 _ (by push_cast; exact le_max_left _ _)
  · exact jsRound_le 100 _
      (by push_cast; exact score_upper _ (by positivity))

/-- The non-null case of `bestMatchStep` (the JS expression
`current.matchScore > best.matchScore ? current : best`). -/
def pickBetter (b c : SleepOption) : SleepOption :=
  if b.matchScore < c.matchScore then c else b

/-- `bestMatchStep` on a non-null accumulator is `pickBetter`. -/
theorem bestMatchStep_some (b c : SleepOption) :
    bestMatchStep (some b) c = some (pickBetter b c) := by
  by_cases h : b.matchScore < c.matchScore <;>
    simp [bestMatchStep, pickBetter, h]

/-- The bestMatch reduce with a non-null accumulator never returns to
null. -/
theorem foldl_bestMatchStep_some (t : List SleepOption) (b : SleepOption) :
    t.foldl bestMatchStep (some b) = some (t.foldl pickBetter b) := by
  induction t generalizing b with
  | nil => rfl
  | cons c t ih =>
    rw [List.foldl_cons, List.foldl_cons, bestMatchStep_some, ih]

/-- The strict-improvement fold keeps the FIRST element attaining the
maximal match score: the result is a member, dominates every member, and
is the first member whose score reaches the result's score. -/
theorem pickBetter_first_max (t : List SleepOption) (b : SleepOption) :
    (t.foldl pickBetter b) ∈ b :: t ∧
    (∀ o ∈ b :: t, o.matchScore ≤ (t.foldl pickBetter b).matchScore) ∧
    (b :: t).find?
      (fun o => decide ((t.foldl pickBetter b).matchScore ≤ o.matchScore)) =
      some (t.foldl pickBetter b) := by
  induction t generalizing b with
  | nil =>
    refine ⟨List.mem_cons_self _ _, ?_, ?_⟩
    · intro o ho
      rw [List.mem_singleton] at ho
      rw [ho, List.foldl_nil]
    · simp [List.find?]
  | cons c t ih =>
    rw [List.foldl_cons]
    by_cases hbc : b.matchScore < c.matchScore
    · rw [show pickBetter b c = c from by simp [pickBetter, hbc]]
      obtain ⟨hm, hb, hf⟩ := ih c
      have hr : c.matchScore ≤ (t.foldl pickBetter c).matchScore :=
        hb c (List.mem_cons_self c t)
      refine ⟨List.mem_cons_of_mem b hm, ?_, ?_⟩
      · intro o ho
        rcases List.mem_cons.mp ho with rfl | ho2
        · exact le_of_lt (lt_of_lt_of_le hbc hr)
        · exact hb o ho2
      · rw [List.find?_cons_of_neg _ (by simp; linarith), hf]
    · rw [show pickBetter b c = b from by simp [pickBetter, hbc]]
      obtain ⟨hm, hb, hf⟩ := ih b
      have hcb : c.matchScore ≤ b.matchScore := not_lt.mp hbc
      have hrb : b.matchScore ≤ (t.foldl pickBetter b).matchScore :=
        hb b (List.mem_cons_self b t)
      refine ⟨?_, ?_, ?_⟩
      · rcases List.mem_cons.mp hm with h2 | h2
        · rw [h2]
          exact List.mem_cons_self b (c :: t)
        · exact List.mem_cons_of_mem b (List.mem_cons_of_mem c h2)
      · intro o ho
        rcases List.mem_cons.mp ho with rfl | ho2
        · exact hrb
        rcases List.mem_cons.mp ho2 with rfl | ho3
        · exact le_trans hcb hrb
        · exact hb o (List.mem_cons_of_mem b ho3)
      · by_cases hpb : (t.foldl pickBetter b).matchScore ≤ b.matchScore
        · rw [List.find?_cons_of_pos _ (by simpa using hpb)] at hf
          rw [List.find?_cons_of_pos _ (by simpa using hpb)]
          exact hf
        · rw [List.find?_cons_of_neg _ (by simpa using hpb)] at hf
          rw [List.find?_cons_of_neg _ (by simpa using hpb),
            List.find?_cons_of_neg _ (by simp; linarith)]
          exact hf

/-- The option builder never drops a hypothesis: the generated option list
has one entry per awake-duration hypothesis. -/
theorem filterMap_calcOption_length (cw tw : ℚ)
    (opts : List (ℚ × OptionQuality)) :
    (opts.filterMap (fun o =>
      calculateSleepOptionFromAwakeDuration cw tw o.1 o.2)).length =
      opts.length := by
  induction opts with
  | nil => rfl
  | cons a t ih =>
    obtain ⟨s, hs, _⟩ := calcOption_eq cw tw a.1 a.2
    simp [List.filterMap_cons, hs, ih]

/-- Every generated sleep option has an integer match score in [0, 100]. -/
theorem mem_calcOptions_bounds (cw tw : ℚ)
    (opts : List (ℚ × OptionQuality)) (o : SleepOption)
    (ho : o ∈ opts.filterMap (fun a =>
      calculateSleepOptionFromAwakeDuration cw tw a.1 a.2)) :
    0 ≤ o.matchScore ∧ o.matchScore ≤ 100 := by
  rw [List.mem_filterMap] at ho
  obtain ⟨a, _, ha⟩ := ho
  obtain ⟨s, hs, h0, h100, _, _⟩ := calcOption_eq cw tw a.1 a.2
  rw [hs] at ha
  cases ha
  exact ⟨h0, h100⟩

/-- C10: `calculateEnhancedSleepSchedule` yields at least 3 sleep options
(exactly 4 with the custom hypothesis prepended when it lies in
[11.5, 14.5), exactly 3 otherwise), a non-null `bestMatch` that is the
first option attaining the maximal match score, and every option's match
score is an integer in [0, 100]. -/
theorem enhancedSchedule_options_bestMatch (cw tw : ℚ) (custom : Option ℚ) :
    3 ≤ (calculateEnhancedSleepSchedule cw tw custom).sleepOptions.length ∧
    (∀ c, custom = some c → 11.5 ≤ c → c < 14.5 →
      (calculateEnhancedSleepSchedule cw tw custom).sleepOptions.length = 4 ∧
      ((calculateEnhancedSleepSchedule cw tw custom).sleepOptions.head?).map
        (fun o => o.awakeHours) = some c) ∧
    ((∀ c, custom = some c → ¬(11.5 ≤ c ∧ c < 14.5)) →
      (calculateEnhancedSleepSchedule cw tw custom).sleepOptions.length = 3) ∧
    (∃ b, (calculateEnhancedSleepSchedule cw tw custom).bestMatch = some b ∧
      b ∈ (calculateEnhancedSleepSchedule cw tw custom).sleepOptions ∧
      (∀ o ∈ (calculateEnhancedSleepSchedule cw tw custom).sleepOptions,
        o.matchScore ≤ b.matchScore) ∧
      (calculateEnhancedSleepSchedule cw tw custom).sleepOptions.find?
        (fun o => decide (b.matchScore ≤ o.matchScore)) = some b) ∧
    (∀ o ∈ (calculateEnhancedSleepSchedule cw tw custom).sleepOptions,
      0 ≤ o.matchScore ∧ o.matchScore ≤ 100) := by
  have hproj : (calculateEnhancedSleepSchedule cw tw custom).sleepOptions =
      (standardOptionsWithCustom custom).filterMap
        (fun o => calculateSleepOptionFromAwakeDuration cw tw o.1 o.2) := rfl
  have hlen : (calculateEnhancedSleepSchedule cw tw custom).sleepOptions.length =
      (standardOptionsWithCustom custom).length := by
    rw [hproj, filterMap_calcOption_length]
  have hstd3 : 3 ≤ (standardOptionsWithCustom custom).length := by
    cases custom with
    | none => simp [standardOptionsWithCustom]
    | some c =>
      simp only [standardOptionsWithCustom]
      split <;> simp
  refine ⟨?_, ?_, ?_, ?_, ?_⟩
  · rw [hlen]
    exact hstd3
  · intro c hc h1 h2
    subst hc
    have hc0 : c ≠ 0 := ne_of_gt (lt_of_lt_of_le (by norm_num) h1)
    have hstd : standardOptionsWithCustom (some c) =
        (c, OptionQuality.custom) ::
          [(14.5, .short), (16, .recommended), (18, .extended)] := by
      simp [standardOptionsWithCustom, hc0, h1, h2]
    obtain ⟨s, hs, _, _, hsa, _⟩ := calcOption_eq cw tw c OptionQuality.custom
    constructor
    · rw [hlen, hstd]
      rfl
    · rw [hproj, hstd]
      simp [List.filterMap_cons, hs, hsa]
  · intro hno
    rw [hlen]
    cases custom with
    | none => rfl
    | some c =>
      have hcond : ¬(c ≠ 0 ∧ 11.5 ≤ c ∧ c < 14.5) :=
        fun hh => hno c rfl ⟨hh.2.1, hh.2.2⟩
      simp [standardOptionsWithCustom, hcond]
  · have hpos : (calculateEnhancedSleepSchedule cw tw custom).sleepOptions ≠ [] := by
      refine List.ne_nil_of_length_pos ?_
      rw [hlen]
      omega
    obtain ⟨h, t, hht⟩ := List.exists_cons_of_ne_nil hpos
    obtain ⟨hm, hb, hf⟩ := pickBetter_first_max t h
    refine ⟨t.foldl pickBetter h, ?_, ?_, ?_, ?_⟩
    · show (calculateEnhancedSleepSchedule cw tw custom).sleepOptions.foldl
        bestMatchStep none = _
      rw [hht, List.foldl_cons,
        show bestMatchStep none h = some h from rfl,
        foldl_bestMatchStep_some]
    · rw [hht]
      exact hm
    · rw [hht]
      exact hb
    · rw [hht]
      exact hf
  · intro o ho
    rw [hproj] at ho
    exact mem_calcOptions_bounds cw tw _ o ho

/-- C10 witness: a custom awake duration of 12 h (in range) gives 4
options with the custom hypothesis first. -/
theorem enhancedSchedule_options_bestMatch_witness :
    ((11.5 : ℚ) ≤ 12 ∧ (12 : ℚ) < 14.5) ∧
    ((calculateEnhancedSleepSchedule 0 0 (some 12)).sleepOptions.length = 4 ∧
     ((calculateEnhancedSleepSchedule 0 0 (some 12)).sleepOptions.head?).map
       (fun o => o.awakeHours) = some 12) :=
  ⟨⟨by norm_num, by norm_num⟩,
    (enhancedSchedule_options_bestMatch 0 0 (some 12)).2.1 12 rfl
      (by norm_num) (by norm_num)⟩

/-!  ## src/lib/sleep.ts — parseWakeTime  -/

/-- Numeric value of a digit character, `none` for non-digits. -/
def digitVal (c : Char) : Option ℕ :=
  if c.isDigit then some (c.toNat - 48) else none

/-- Greedily take one or two leading digits (the `\d{1,2}` pattern matched
by the date-fns `HH` and `mm` tokens), returning the value and the rest of
the input. -/
def takeDigits12 : List Char → Option (ℕ × List Char)
  | [] => none
  | c :: rest =>
    match digitVal c with
    | none => none
    | some d =>
      match rest with
      | c2 :: rest2 =>
        match digitVal c2 with
        | some d2 => some (10 * d + d2, rest2)
        | none => some (d, rest)
      | [] => some (d, [])

/-- Modelled from the date-fns library (dependency, not repository code):
`parse(s, 'HH:mm', ref)` accepts one or two digits for the hour
(validated 0–23), a literal colon, one or two digits for the minutes
(validated 0–59) and nothing else; any other input yields the JS
`Invalid Date`.  On success the units below minutes are reset to zero and
the calendar day is taken from the reference date. -/
def parseHHmm (s : List Char) : Option (ℕ × ℕ) :=
  match takeDigits12 s with
  | none => none
  | some (h, rest) =>
    if 23 < h then none
    else
      match rest with
      | c :: rest2 =>
        if c = Char.ofNat 58 then
          match takeDigits12 rest2 with
          | none => none
          | some (m, rest3) =>
            if 59 < m then none
            else
              match rest3 with
              | [] => some (h, m)
              | _ :: _ => none
        else none
      | [] => none

/-- `parseWakeTime` from src/lib/sleep.ts.  A JS `Date` that may be the
`Invalid Date` value is `Option ℚ` (`none` = Invalid Date): on a
malformed string, date-fns `parse` returns `Invalid Date` without
throwing, the `time < today` comparison on it is false (NaN comparison),
and the invalid date is returned unchanged.  The clock (`new Date()`) is
passed explicitly. -/
def parseWakeTime (s : List Char) (now : ℚ) : Option ℚ :=
  match parseHHmm s with
  | none => none
  | some (h, m) =>
    let time := startOfDay now + (h : ℚ) * msPerHour + (m : ℚ) * msPerMinute
    if time < now then some (time + msPerDay) else some time

/-- C4 counterexample input: the malformed time string `banana`. -/
def badInput : List Char := ['b', 'a', 'n', 'a', 'n', 'a']

/-- C4 witness input: the well-formed time string `07:00`. -/
def goodInput : List Char := ['0', '7', ':', '0', '0']

/-- C4 counterexample: on the malformed input `banana`, `parseWakeTime`
silently returns the JS Invalid Date (`none`) — it does not fail with a
parse error, refuting the claim that an invalid date is never silently
returned. -/
theorem parseWakeTime_silently_returns_invalid :
    parseWakeTime badInput 0 = none ∧
    (parseWakeTime badInput 0).isSome = false :=
  ⟨rfl, rfl⟩

/-- C4 (amended): for malformed input `parseWakeTime` silently returns the
Invalid Date; for a well-formed `HH:mm` string it returns today's
occurrence of that time, rolled forward one calendar day exactly when
that occurrence is already in the past. -/
theorem parseWakeTime_behaviour (s : List Char) (now : ℚ) :
    (parseHHmm s = none → parseWakeTime s now = none) ∧
    (∀ h m, parseHHmm s = some (h, m) →
      (startOfDay now + (h : ℚ) * msPerHour + (m : ℚ) * msPerMinute < now →
        parseWakeTime s now =
          some (startOfDay now + (h : ℚ) * msPerHour +
            (m : ℚ) * msPerMinute + msPerDay)) ∧
      (¬(startOfDay now + (h : ℚ) * msPerHour + (m : ℚ) * msPerMinute < now) →
        parseWakeTime s now =
          some (startOfDay now + (h : ℚ) * msPerHour +
            (m : ℚ) * msPerMinute))) := by
  constructor
  · intro hn
    simp [parseWakeTime, hn]
  · intro h m hsome
    constructor <;> intro hlt <;> simp [parseWakeTime, hsome, hlt]

/-- C4 witness: at 07:01 the string `07:00` parses and rolls to 07:00 of
the next day. -/
theorem parseWakeTime_behaviour_witness :
    parseHHmm goodInput = some (7, 0) ∧
    (startOfDay 25260000 + (7 : ℚ) * msPerHour +
      (0 : ℚ) * msPerMinute < 25260000) ∧
    parseWakeTime goodInput 25260000 =
      some (startOfDay 25260000 + (7 : ℚ) * msPerHour +
        (0 : ℚ) * msPerMinute + msPerDay) :=
  ⟨rfl, by norm_num [startOfDay, msPerDay, msPerHour, msPerMinute],
    ((parseWakeTime_behaviour goodInput 25260000).2 7 0 rfl).1
      (by norm_num [startOfDay, msPerDay, msPerHour, msPerMinute])⟩
